import Mathlib

/-!
Shallow embedding of `xfer` (`src/main.rs`), a CLI wrapper around the
external `cp`, `scp`, `rsync` and `ssh` binaries.

Modelling conventions:
* `HashMap<String, ServerConfig>` becomes an association list
  (`List (String × ServerConfig)` with `List.lookup`).
* Spawning an external process is modelled by an oracle
  `exec : Invocation → SpawnResult`; every operation returns the list of
  invocations it actually spawned together with its `Result<(), String>`
  value, so "shells out exactly once" is visible in the model.
* `Path::is_dir` (a filesystem query) is an oracle `isDir : String → Bool`.
* A `.unwrap()` panic is modelled by `Option`: `none` means the Rust code
  would panic.
* `u16` ports become `Nat`; `i32` exit codes become `Int`.
-/

/-- An external process invocation: the binary name and its argument list. -/
structure Invocation where
  program : String
  args : List String
deriving DecidableEq, Repr

/-- Result of `Command::output()`: either the spawn itself failed
(`io::Error`, mapped by the Rust code into a message), or the process ran
and exited with a success flag (`ExitStatus::success`) and an optional
exit code (`ExitStatus::code`, `None` when killed by a signal). -/
inductive SpawnResult where
  | spawnError (msg : String)
  | exited (success : Bool) (code : Option Int)
deriving DecidableEq, Repr

/-- Mirrors `ServerConfig` of `main.rs` lines 11-18. -/
structure ServerConfig where
  host : String
  user : String
  key_path : Option String
  port : Option Nat
  default_remote_path : Option String
deriving DecidableEq, Repr

/-- Mirrors `Config` of `main.rs` lines 20-24; the `HashMap` is an
association list. -/
structure Config where
  servers : List (String × ServerConfig)
  default_server : Option String
deriving DecidableEq, Repr

/-- Mirrors `Config::get_server` (line 59): `self.servers.get(alias)`. -/
def Config.get_server (c : Config) (aliasStr : String) : Option ServerConfig :=
  c.servers.lookup aliasStr

/-- Rust `path.starts_with('/')` on the model's strings. -/
def startsWithSlash (s : String) : Bool :=
  match s.data with
  | c :: _ => c == '/'
  | [] => false

/-- Computation of `remote_path` inside `TransferEngine::parse_location`
(lines 94-100): an absolute path is kept, a relative one is joined to the
server's default remote path, or to `/home/<user>/` when none is set. -/
def resolve_remote_path (path : String) (server : ServerConfig) : String :=
  if startsWithSlash path then path
  else match server.default_remote_path with
    | some default_path => default_path ++ "/" ++ path
    | none => "/home/" ++ server.user ++ "/" ++ path

/-- Mirrors `TransferEngine::parse_location` (lines 67-103).
Returns `(alias, host, path)`.  `location_str.contains(':')` is membership
of `:` in the character list; `splitn(2, ':')` is split at the first `:`
(the `parts.len() != 2` error branch of the Rust code is dead code when the
string contains `:`, so it does not appear here).  The error message keeps
the Rust wording minus the quote characters around the alias. -/
def parse_location (loc : String) (config : Config) :
    Except String (String × String × String) :=
  if ':' ∉ loc.data then
    .ok ("local", "", loc)
  else
    match config.get_server ⟨loc.data.takeWhile (· != ':')⟩ with
    | none =>
        .error ("Unknown server alias " ++
          (⟨loc.data.takeWhile (· != ':')⟩ : String) ++
          ". Add it to your config first.")
    | some server =>
        .ok (⟨loc.data.takeWhile (· != ':')⟩, server.host,
          resolve_remote_path ⟨(loc.data.dropWhile (· != ':')).tail⟩ server)

/-- Exit-code formatting: Rust's `{:?}` on an `Option<i32>`. -/
def fmtCode : Option Int → String
  | some c => "Some(" ++ toString c ++ ")"
  | none => "None"

/-- The shared spawn-and-check pattern of every operation in `main.rs`:
map a spawn error to `Failed to execute <name>: <e>`, a non-success exit
status to `<name> failed with exit code: <code:?>`, success to `Ok(())`. -/
def check_output (name : String) (r : SpawnResult) : Except String Unit :=
  match r with
  | .spawnError e => .error ("Failed to execute " ++ name ++ ": " ++ e)
  | .exited true _ => .ok ()
  | .exited false code =>
      .error (name ++ " failed with exit code: " ++ fmtCode code)

/-- Argument assembly of `TransferEngine::run_scp` (lines 259-280),
mirroring the sequence of `args.push` calls. -/
def scp_args (src dest : String) (key_path : Option String)
    (port : Option Nat) : List String :=
  let args : List String := []
  let args := match key_path with
    | some k => args ++ ["-i", k]
    | none => args
  let args := match port with
    | some p => args ++ ["-P", toString p]
    | none => args
  args ++ [src, dest]

/-- Argument assembly of `TransferEngine::run_rsync` (lines 216-240),
mirroring the nested `if let` structure building the `-e` ssh command. -/
def rsync_args (src dest : String) (key_path : Option String)
    (port : Option Nat) : List String :=
  let args : List String := ["-avz", "--progress"]
  let args := match key_path with
    | some k =>
        match port with
        | some p => args ++ ["-e", "ssh -i " ++ k ++ " -p " ++ toString p]
        | none => args ++ ["-e", "ssh -i " ++ k]
    | none =>
        match port with
        | some p => args ++ ["-e", "ssh -p " ++ toString p]
        | none => args
  args ++ [src, dest]

/-- Mirrors `TransferEngine::run_scp` (lines 259-297): one spawn of `scp`,
then the exit-status check. -/
def run_scp (src dest : String) (key_path : Option String)
    (port : Option Nat) (exec : Invocation → SpawnResult) :
    List Invocation × Except String Unit :=
  let inv : Invocation := ⟨"scp", scp_args src dest key_path port⟩
  ([inv], check_output "scp" (exec inv))

/-- Mirrors `TransferEngine::run_rsync` (lines 216-257): one spawn of
`rsync`, then the exit-status check. -/
def run_rsync (src dest : String) (key_path : Option String)
    (port : Option Nat) (exec : Invocation → SpawnResult) :
    List Invocation × Except String Unit :=
  let inv : Invocation := ⟨"rsync", rsync_args src dest key_path port⟩
  ([inv], check_output "rsync" (exec inv))

/-- Mirrors `TransferEngine::transfer_to_remote` (lines 137-162):
directories go through rsync with a trailing `/` on the source, files
through scp; the destination is `user@host:remote_path`. -/
def transfer_to_remote (local_path host user remote_path : String)
    (key_path : Option String) (port : Option Nat)
    (isDir : String → Bool) (exec : Invocation → SpawnResult) :
    List Invocation × Except String Unit :=
  if isDir local_path then
    run_rsync (local_path ++ "/") (user ++ "@" ++ host ++ ":" ++ remote_path)
      key_path port exec
  else
    run_scp local_path (user ++ "@" ++ host ++ ":" ++ remote_path)
      key_path port exec

/-- Mirrors `TransferEngine::transfer_from_remote` (lines 164-178):
always scp, with the remote `user@host:remote_path` as source. -/
def transfer_from_remote (host user remote_path local_path : String)
    (key_path : Option String) (port : Option Nat)
    (exec : Invocation → SpawnResult) :
    List Invocation × Except String Unit :=
  run_scp (user ++ "@" ++ host ++ ":" ++ remote_path) local_path
    key_path port exec

/-- Mirrors `TransferEngine::transfer_local_to_local` (lines 180-214):
`rsync -av --progress src dest` for a directory, `cp src dest` otherwise,
each spawned once and checked. -/
def transfer_local_to_local (src dest : String) (isDir : String → Bool)
    (exec : Invocation → SpawnResult) :
    List Invocation × Except String Unit :=
  if isDir src then
    let inv : Invocation := ⟨"rsync", ["-av", "--progress", src, dest]⟩
    ([inv], check_output "rsync" (exec inv))
  else
    let inv : Invocation := ⟨"cp", [src, dest]⟩
    ([inv], check_output "cp" (exec inv))

/-- Mirrors `TransferEngine::send_file` (lines 105-135).  The two
`config.get_server(..).unwrap()` calls are modelled by `Option`: the
result is `none` exactly when the Rust code would panic. -/
def send_file (src dest : String) (config : Config) (isDir : String → Bool)
    (exec : Invocation → SpawnResult) :
    Option (List Invocation × Except String Unit) :=
  match parse_location src config with
  | .error e => some ([], .error e)
  | .ok (src_alias, src_host, src_path) =>
    match parse_location dest config with
    | .error e => some ([], .error e)
    | .ok (dest_alias, dest_host, dest_path) =>
      if src_alias = "local" ∧ dest_alias ≠ "local" then
        match config.get_server dest_alias with
        | none => none
        | some server =>
            some (transfer_to_remote src_path dest_host server.user
              dest_path server.key_path server.port isDir exec)
      else if src_alias ≠ "local" ∧ dest_alias = "local" then
        match config.get_server src_alias with
        | none => none
        | some server =>
            some (transfer_from_remote src_host server.user src_path
              dest_path server.key_path server.port exec)
      else if src_alias = "local" ∧ dest_alias = "local" then
        some (transfer_local_to_local src_path dest_path isDir exec)
      else
        some ([], .error "Direct remote-to-remote transfers not supported yet")

/-- Argument assembly of `TransferEngine::list_remote` (lines 316-333),
mirroring the `args.push` sequence: optional `-i key`, optional lowercase
`-p port`, then `user@host` and the remote command `ls -la <path>`. -/
def list_args (server : ServerConfig) (remote_path : String) : List String :=
  let args : List String := []
  let args := match server.key_path with
    | some k => args ++ ["-i", k]
    | none => args
  let args := match server.port with
    | some p => args ++ ["-p", toString p]
    | none => args
  args ++ [server.user ++ "@" ++ server.host, "ls -la " ++ remote_path]

/-- Mirrors `TransferEngine::list_remote` (lines 299-350): unknown alias
is an early error (no spawn); an empty path falls back to the server's
default remote path or `/home/<user>`; then one spawn of `ssh`. -/
def list_remote (aliasStr path : String) (config : Config)
    (exec : Invocation → SpawnResult) :
    List Invocation × Except String Unit :=
  match config.get_server aliasStr with
  | none =>
      ([], .error ("Unknown server alias " ++ aliasStr ++
        ". Add it to your config first."))
  | some server =>
      let remote_path : String :=
        if path = "" then
          match server.default_remote_path with
          | some dp => dp
          | none => "/home/" ++ server.user
        else path
      let inv : Invocation := ⟨"ssh", list_args server remote_path⟩
      ([inv], check_output "ssh" (exec inv))

/-- The file-moving subcommands of the CLI (`main`, lines 506-557). -/
inductive Cmd where
  | send (src dest : String)
  | get (src dest : String)
  | sync (src dest : String)
  | list (loc : String)

/-- Mirrors the subcommand dispatch in `main` (lines 506-557): `send`,
`get` and `sync` all call `TransferEngine::send_file`; `list` splits its
argument at the first `:` (erroring when there is none) and calls
`TransferEngine::list_remote`. -/
def run_command (c : Cmd) (config : Config) (isDir : String → Bool)
    (exec : Invocation → SpawnResult) :
    Option (List Invocation × Except String Unit) :=
  match c with
  | .send src dest => send_file src dest config isDir exec
  | .get src dest => send_file src dest config isDir exec
  | .sync src dest => send_file src dest config isDir exec
  | .list loc =>
      if ':' ∉ loc.data then
        some ([], .error "Invalid location format. Use alias:/path")
      else
        let aliasStr : String := ⟨loc.data.takeWhile (· != ':')⟩
        let path : String := ⟨(loc.data.dropWhile (· != ':')).tail⟩
        some (list_remote aliasStr path config exec)

/-! ### Helper lemmas about `parse_location` -/

lemma takeWhile_append_colon (A P : List Char) (hA : ':' ∉ A) :
    (A ++ ':' :: P).takeWhile (· != ':') = A := by
  induction A with
  | nil => simp
  | cons a as ih =>
      have ha : a ≠ ':' := fun h => hA (h ▸ List.mem_cons_self a as)
      have ht : (a != ':') = true := by simpa using ha
      have has : ':' ∉ as := fun h => hA (List.mem_cons_of_mem a h)
      simp [List.takeWhile_cons, ht, ih has]

lemma dropWhile_append_colon (A P : List Char) (hA : ':' ∉ A) :
    (A ++ ':' :: P).dropWhile (· != ':') = ':' :: P := by
  induction A with
  | nil => simp
  | cons a as ih =>
      have ha : a ≠ ':' := fun h => hA (h ▸ List.mem_cons_self a as)
      have ht : (a != ':') = true := by simpa using ha
      have has : ':' ∉ as := fun h => hA (List.mem_cons_of_mem a h)
      simp [List.dropWhile_cons, ht, ih has]

lemma parse_location_remote (loc : String) (config : Config) (A P : List Char)
    (hdata : loc.data = A ++ ':' :: P) (hA : ':' ∉ A) :
    parse_location loc config =
      match config.get_server ⟨A⟩ with
      | none =>
          .error ("Unknown server alias " ++ (⟨A⟩ : String) ++
            ". Add it to your config first.")
      | some server =>
          .ok (⟨A⟩, server.host, resolve_remote_path ⟨P⟩ server) := by
  have hmem : ':' ∈ loc.data := by
    rw [hdata]; exact List.mem_append_right A (List.mem_cons_self _ _)
  unfold parse_location
  rw [if_neg (by simpa using hmem), hdata,
    takeWhile_append_colon A P hA, dropWhile_append_colon A P hA,
    List.tail_cons]

lemma parse_ok_alias {loc : String} {config : Config} {a h p : String}
    (hp : parse_location loc config = .ok (a, h, p)) (ha : a ≠ "local") :
    ∃ s, config.get_server a = some s := by
  unfold parse_location at hp
  by_cases hm : ':' ∈ loc.data
  · rw [if_neg (by simpa using hm)] at hp
    rcases hg : config.get_server ⟨loc.data.takeWhile (· != ':')⟩ with _ | s
    · rw [hg] at hp; exact absurd hp (by simp)
    · rw [hg] at hp
      simp only [Except.ok.injEq, Prod.mk.injEq] at hp
      exact ⟨s, hp.1 ▸ hg⟩
  · rw [if_pos (by simpa using hm)] at hp
    simp only [Except.ok.injEq, Prod.mk.injEq] at hp
    exact absurd hp.1.symm ha

lemma startsWithSlash_cons (P' : List Char) :
    startsWithSlash ⟨'/' :: P'⟩ = true := by
  simp [startsWithSlash]

lemma startsWithSlash_false (P : List Char) (hne : ∀ P', P ≠ '/' :: P') :
    startsWithSlash ⟨P⟩ = false := by
  cases P with
  | nil => rfl
  | cons c t =>
      have hc : c ≠ '/' := fun h => hne t (by rw [h])
      simp [startsWithSlash, hc]

/-! ### Concrete fixtures used by the witness theorems -/

/-- A server with no optional fields set. -/
def srv0 : ServerConfig := ⟨"h.example", "bob", none, none, none⟩

/-- A server with every optional field set. -/
def srv1 : ServerConfig :=
  ⟨"h2.example", "eve", some "/k/id", some 2222, some "/data"⟩

/-- A two-server configuration. -/
def cfg0 : Config := ⟨[("srv", srv0), ("drv", srv1)], none⟩

/-- A filesystem oracle on which nothing is a directory. -/
def isDir0 : String → Bool := fun _ => false

/-- A spawn oracle on which every process exits with status 1. -/
def exec0 : Invocation → SpawnResult := fun _ => .exited false (some 1)

/-- C2: a location string is classified local iff it has no `:`; a local
result keeps the path unchanged and is the same for every config; a string
with a `:` is split at the first `:` into alias and path, erroring exactly
when the alias is not a key of the server map. -/
theorem c2_parse_location_classifies (loc : String) (config : Config) :
    ((':' ∉ loc.data) → parse_location loc config = .ok ("local", "", loc))
    ∧ (∀ A P : List Char, loc.data = A ++ ':' :: P → ':' ∉ A →
        (config.get_server ⟨A⟩ = none →
          ∃ e, parse_location loc config = .error e)
        ∧ (∀ s, config.get_server ⟨A⟩ = some s →
            ∃ rp, parse_location loc config = .ok (⟨A⟩, s.host, rp))) := by
  constructor
  · intro h
    unfold parse_location
    rw [if_pos h]
  · intro A P hdata hA
    constructor
    · intro hnone
      rw [parse_location_remote loc config A P hdata hA, hnone]
      exact ⟨_, rfl⟩
    · intro s hs
      rw [parse_location_remote loc config A P hdata hA, hs]
      exact ⟨_, rfl⟩

/-- Witness for C2 at concrete inputs. -/
theorem c2_witness :
    parse_location "a.txt" cfg0 = .ok ("local", "", "a.txt")
    ∧ (∃ e, parse_location "bad:/x" cfg0 = .error e)
    ∧ (∃ rp, parse_location "srv:/x" cfg0 =
        .ok (⟨['s', 'r', 'v']⟩, srv0.host, rp)) :=
  ⟨(c2_parse_location_classifies "a.txt" cfg0).1 (by decide),
   ((c2_parse_location_classifies "bad:/x" cfg0).2
      ['b', 'a', 'd'] ['/', 'x'] rfl (by decide)).1 rfl,
   ((c2_parse_location_classifies "srv:/x" cfg0).2
      ['s', 'r', 'v'] ['/', 'x'] rfl (by decide)).2 srv0 rfl⟩

/-- C3: for a remote location resolved against server `s`, a path starting
with `/` is returned unchanged (ignoring the default remote path); a
relative path is prefixed with the configured default remote path when one
exists and with `/home/<user>/` otherwise. -/
theorem c3_relative_path_resolution (loc : String) (config : Config)
    (A P : List Char) (s : ServerConfig)
    (hdata : loc.data = A ++ ':' :: P) (hA : ':' ∉ A)
    (hs : config.get_server ⟨A⟩ = some s) :
    (∀ P', P = '/' :: P' →
      parse_location loc config = .ok (⟨A⟩, s.host, ⟨P⟩))
    ∧ ((∀ P', P ≠ '/' :: P') → ∀ dp, s.default_remote_path = some dp →
        parse_location loc config =
          .ok (⟨A⟩, s.host, dp ++ "/" ++ (⟨P⟩ : String)))
    ∧ ((∀ P', P ≠ '/' :: P') → s.default_remote_path = none →
        parse_location loc config =
          .ok (⟨A⟩, s.host, "/home/" ++ s.user ++ "/" ++ (⟨P⟩ : String))) := by
  rw [parse_location_remote loc config A P hdata hA, hs]
  refine ⟨?_, ?_, ?_⟩
  · intro P' hP
    subst hP
    simp [resolve_remote_path, startsWithSlash_cons]
  · intro hne dp hdp
    simp [resolve_remote_path, startsWithSlash_false P hne, hdp]
  · intro hne hnone
    simp [resolve_remote_path, startsWithSlash_false P hne, hnone]

/-- Witness for C3: absolute path, relative path with a configured default
remote path, and relative path without one. -/
theorem c3_witness :
    parse_location "srv:/x" cfg0 =
      .ok (⟨['s', 'r', 'v']⟩, srv0.host, ⟨['/', 'x']⟩)
    ∧ parse_location "drv:notes" cfg0 =
      .ok (⟨['d', 'r', 'v']⟩, srv1.host,
        "/data" ++ "/" ++ (⟨['n', 'o', 't', 'e', 's']⟩ : String))
    ∧ parse_location "srv:notes" cfg0 =
      .ok (⟨['s', 'r', 'v']⟩, srv0.host,
        "/home/" ++ srv0.user ++ "/" ++ (⟨['n', 'o', 't', 'e', 's']⟩ : String)) :=
  ⟨(c3_relative_path_resolution "srv:/x" cfg0 ['s', 'r', 'v'] ['/', 'x'] srv0
      rfl (by decide) rfl).1 ['x'] rfl,
   (c3_relative_path_resolution "drv:notes" cfg0 ['d', 'r', 'v']
      ['n', 'o', 't', 'e', 's'] srv1 rfl (by decide) rfl).2.1
      (fun P' h => absurd (List.cons_eq_cons.mp h).1 (by decide))
      "/data" rfl,
   (c3_relative_path_resolution "srv:notes" cfg0 ['s', 'r', 'v']
      ['n', 'o', 't', 'e', 's'] srv0 rfl (by decide) rfl).2.2
      (fun P' h => absurd (List.cons_eq_cons.mp h).1 (by decide)) rfl⟩

/-- C10: any alias returned by `parse_location` other than the literal
`local` is a key of the server map, and consequently `send_file` never
hits the panicking `unwrap` (modelled as `none`), for any inputs. -/
theorem c10_get_server_unwrap_safe :
    (∀ (loc : String) (config : Config) (a h p : String),
        parse_location loc config = .ok (a, h, p) → a ≠ "local" →
        (config.get_server a).isSome)
    ∧ ∀ (src dest : String) (config : Config) (isDir : String → Bool)
        (exec : Invocation → SpawnResult),
        send_file src dest config isDir exec ≠ none := by
  constructor
  · intro loc config a h p hp ha
    obtain ⟨s, hs⟩ := parse_ok_alias hp ha
    rw [hs]
    rfl
  · intro src dest config isDir exec
    unfold send_file
    rcases hps : parse_location src config with e | ⟨sa, sh, sp⟩
    · simp
    · rcases hpd : parse_location dest config with e2 | ⟨da, dh, dp⟩
      · simp
      · simp only []
        by_cases h1 : sa = "local" ∧ da ≠ "local"
        · rw [if_pos h1]
          obtain ⟨s, hs⟩ := parse_ok_alias hpd h1.2
          rw [hs]
          simp
        · rw [if_neg h1]
          by_cases h2 : sa ≠ "local" ∧ da = "local"
          · rw [if_pos h2]
            obtain ⟨s, hs⟩ := parse_ok_alias hps h2.1
            rw [hs]
            simp
          · rw [if_neg h2]
            by_cases h3 : sa = "local" ∧ da = "local"
            · rw [if_pos h3]; simp
            · rw [if_neg h3]; simp

/-- Witness for C10 at concrete inputs. -/
theorem c10_witness :
    (cfg0.get_server "srv").isSome
    ∧ send_file "a" "b" cfg0 isDir0 exec0 ≠ none :=
  ⟨c10_get_server_unwrap_safe.1 "srv:/x" cfg0 "srv" "h.example" "/x" rfl
      (by decide),
   c10_get_server_unwrap_safe.2 "a" "b" cfg0 isDir0 exec0⟩

/-! ### C4: spawn-once and exit-status checking -/

lemma check_output_ok_iff (name : String) (r : SpawnResult) :
    check_output name r = .ok () ↔ ∃ c, r = .exited true c := by
  cases r with
  | spawnError e => simp [check_output]
  | exited success code =>
      cases success
      · simp [check_output]
      · simp [check_output]

lemma check_output_error_code (name : String) (c : Int) :
    ∃ u v, check_output name (.exited false (some c)) =
      .error (u ++ toString c ++ v) := by
  refine ⟨name ++ " failed with exit code: " ++ "Some(", ")", ?_⟩
  have hf : fmtCode (some c) = "Some(" ++ toString c ++ ")" := rfl
  show Except.error (name ++ " failed with exit code: " ++ fmtCode (some c))
      = Except.error (name ++ " failed with exit code: " ++ "Some(" ++
          toString c ++ ")")
  rw [hf]
  simp only [String.append_assoc]

/-- Property of one operation result `r = (trace, result)`: exactly one
process was spawned, the result is `Ok(())` iff its exit status was a
success, and a non-success exit code `c` is embedded in the error text. -/
def SpawnsOnceChecked (exec : Invocation → SpawnResult)
    (r : List Invocation × Except String Unit) : Prop :=
  ∃ inv, r.1 = [inv]
    ∧ (r.2 = .ok () ↔ ∃ c, exec inv = .exited true c)
    ∧ ∀ c : Int, exec inv = .exited false (some c) →
        ∃ u v, r.2 = .error (u ++ toString c ++ v)

lemma spawn_checked (exec : Invocation → SpawnResult) (name : String)
    (inv : Invocation) :
    SpawnsOnceChecked exec ([inv], check_output name (exec inv)) := by
  refine ⟨inv, rfl, check_output_ok_iff name (exec inv), ?_⟩
  intro c hc
  rw [hc]
  exact check_output_error_code name c

/-- C4: `run_scp`, `run_rsync`, `transfer_local_to_local` and (on a known
alias) `list_remote` each spawn their external process exactly once with
no retry, return `Ok` iff the process's exit status is a success, and put
a non-success exit code into the error message. -/
theorem c4_spawn_once_exit_checked (src dest : String)
    (key : Option String) (port : Option Nat) (isDir : String → Bool)
    (aliasStr path : String) (config : Config) (server : ServerConfig)
    (exec : Invocation → SpawnResult) :
    SpawnsOnceChecked exec (run_scp src dest key port exec)
    ∧ SpawnsOnceChecked exec (run_rsync src dest key port exec)
    ∧ SpawnsOnceChecked exec (transfer_local_to_local src dest isDir exec)
    ∧ (config.get_server aliasStr = some server →
        SpawnsOnceChecked exec (list_remote aliasStr path config exec)) := by
  refine ⟨spawn_checked exec "scp" _, spawn_checked exec "rsync" _, ?_, ?_⟩
  · unfold transfer_local_to_local
    by_cases h : isDir src
    · rw [if_pos h]
      exact spawn_checked exec "rsync" _
    · rw [if_neg h]
      exact spawn_checked exec "cp" _
  · intro hs
    unfold list_remote
    rw [hs]
    exact spawn_checked exec "ssh" _

/-- Witness for C4 at concrete inputs. -/
theorem c4_witness :
    SpawnsOnceChecked exec0 (run_scp "a" "b" none none exec0)
    ∧ SpawnsOnceChecked exec0 (list_remote "srv" "x" cfg0 exec0) :=
  ⟨(c4_spawn_once_exit_checked "a" "b" none none isDir0 "srv" "x" cfg0 srv0
      exec0).1,
   (c4_spawn_once_exit_checked "a" "b" none none isDir0 "srv" "x" cfg0 srv0
      exec0).2.2.2 rfl⟩

/-- C5: on a known alias, the listing operation spawns a single `ssh`
invocation whose final two arguments are the target `user@host` of the
aliased server and the remote command `ls -la <path>`, where an empty path
is replaced by the server's default remote path or `/home/<user>`. -/
theorem c5_list_remote_ssh_command (aliasStr path : String) (config : Config)
    (server : ServerConfig) (exec : Invocation → SpawnResult)
    (hs : config.get_server aliasStr = some server) :
    ∃ opts : List String,
      (list_remote aliasStr path config exec).1 =
        [⟨"ssh", opts ++ [server.user ++ "@" ++ server.host,
          "ls -la " ++ (if path = "" then
            match server.default_remote_path with
            | some dp => dp
            | none => "/home/" ++ server.user
          else path)]⟩] := by
  unfold list_remote
  rw [hs]
  exact ⟨_, rfl⟩

/-- Witness for C5 at concrete inputs (empty path, no default path). -/
theorem c5_witness :
    ∃ opts : List String,
      (list_remote "srv" "" cfg0 exec0).1 =
        [⟨"ssh", opts ++ [srv0.user ++ "@" ++ srv0.host,
          "ls -la " ++ (if ("" : String) = "" then
            match srv0.default_remote_path with
            | some dp => dp
            | none => "/home/" ++ srv0.user
          else "")]⟩] :=
  c5_list_remote_ssh_command "srv" "" cfg0 srv0 exec0 rfl

/-- C7: the assembled scp arguments are the optional `-i <key>`, then the
optional `-P <port>`, then source and destination in that order; the
rsync arguments always start with `-avz --progress` and contain an `-e`
ssh command with the configured identity file and/or port exactly when at
least one of the two is configured. -/
theorem c7_argument_assembly (src dest : String) (key : Option String)
    (port : Option Nat) :
    scp_args src dest key port =
      (match key with | some k => ["-i", k] | none => [])
      ++ (match port with | some p => ["-P", toString p] | none => [])
      ++ [src, dest]
    ∧ rsync_args src dest key port =
      ["-avz", "--progress"]
      ++ (match key, port with
          | some k, some p => ["-e", "ssh -i " ++ k ++ " -p " ++ toString p]
          | some k, none => ["-e", "ssh -i " ++ k]
          | none, some p => ["-e", "ssh -p " ++ toString p]
          | none, none => [])
      ++ [src, dest]
    ∧ (src ≠ "-e" → dest ≠ "-e" →
        ("-e" ∈ rsync_args src dest key port ↔ (key.isSome ∨ port.isSome))) := by
  refine ⟨?_, ?_, ?_⟩
  · cases key <;> cases port <;> simp [scp_args]
  · cases key <;> cases port <;> simp [rsync_args]
  · intro hsrc hdest
    cases key <;> cases port <;>
      simp [rsync_args, Ne.symm hsrc, Ne.symm hdest]

/-- Witness for C7 at concrete inputs. -/
theorem c7_witness :
    scp_args "f" "g" (some "k") (some 22) =
      (match some "k" with | some k => ["-i", k] | none => ([] : List String))
      ++ (match some 22 with
          | some p => ["-P", toString p]
          | none => ([] : List String))
      ++ ["f", "g"]
    ∧ ("-e" ∈ rsync_args "f" "g" (some "k") (some 22) ↔
        ((some "k").isSome ∨ (some (22 : Nat)).isSome)) :=
  ⟨(c7_argument_assembly "f" "g" (some "k") (some 22)).1,
   (c7_argument_assembly "f" "g" (some "k") (some 22)).2.2
      (by decide) (by decide)⟩

lemma send_file_eq (src dest : String) (config : Config)
    (isDir : String → Bool) (exec : Invocation → SpawnResult)
    (sa sh sp da dh dp : String)
    (hps : parse_location src config = .ok (sa, sh, sp))
    (hpd : parse_location dest config = .ok (da, dh, dp)) :
    send_file src dest config isDir exec =
      if sa = "local" ∧ da ≠ "local" then
        match config.get_server da with
        | none => none
        | some server =>
            some (transfer_to_remote sp dh server.user dp server.key_path
              server.port isDir exec)
      else if sa ≠ "local" ∧ da = "local" then
        match config.get_server sa with
        | none => none
        | some server =>
            some (transfer_from_remote sh server.user sp dp server.key_path
              server.port exec)
      else if sa = "local" ∧ da = "local" then
        some (transfer_local_to_local sp dp isDir exec)
      else
        some ([], .error "Direct remote-to-remote transfers not supported yet") := by
  unfold send_file
  rw [hps, hpd]

/-- C1: given the two resolved locations, `send_file` picks exactly one of
four modes: local→local spawns `cp` for a file and `rsync` for a
directory; local→remote spawns `scp` for a file and `rsync` for a
directory; remote→local spawns `scp`; remote→remote spawns nothing and
errors that remote-to-remote transfers are unsupported. -/
theorem c1_send_file_dispatch (src dest : String) (config : Config)
    (isDir : String → Bool) (exec : Invocation → SpawnResult)
    (sa sh sp da dh dp : String)
    (hps : parse_location src config = .ok (sa, sh, sp))
    (hpd : parse_location dest config = .ok (da, dh, dp)) :
    (sa = "local" → da = "local" →
      (send_file src dest config isDir exec).map
          (fun r => r.1.map Invocation.program)
        = some [if isDir sp then "rsync" else "cp"])
    ∧ (sa = "local" → da ≠ "local" →
      (send_file src dest config isDir exec).map
          (fun r => r.1.map Invocation.program)
        = some [if isDir sp then "rsync" else "scp"])
    ∧ (sa ≠ "local" → da = "local" →
      (send_file src dest config isDir exec).map
          (fun r => r.1.map Invocation.program)
        = some ["scp"])
    ∧ (sa ≠ "local" → da ≠ "local" →
      send_file src dest config isDir exec =
        some ([], .error "Direct remote-to-remote transfers not supported yet")) := by
  rw [send_file_eq src dest config isDir exec sa sh sp da dh dp hps hpd]
  refine ⟨?_, ?_, ?_, ?_⟩
  · intro h1 h2
    subst h1
    subst h2
    rw [if_neg (by simp), if_neg (by simp), if_pos ⟨rfl, rfl⟩]
    unfold transfer_local_to_local
    by_cases hd : isDir sp
    · rw [if_pos hd, if_pos hd]
      rfl
    · rw [if_neg hd, if_neg hd]
      rfl
  · intro h1 h2
    subst h1
    rw [if_pos ⟨rfl, h2⟩]
    obtain ⟨s, hs⟩ := parse_ok_alias hpd h2
    rw [hs]
    by_cases hd : isDir sp
    · simp [transfer_to_remote, run_rsync, hd]
    · simp [transfer_to_remote, run_scp, hd]
  · intro h1 h2
    subst h2
    rw [if_neg (by simp [h1]), if_pos ⟨h1, rfl⟩]
    obtain ⟨s, hs⟩ := parse_ok_alias hps h1
    rw [hs]
    rfl
  · intro h1 h2
    rw [if_neg (by simp [h1]), if_neg (by simp [h2]), if_neg (by simp [h1])]

/-- Witness for C1: local→remote file transfer spawns scp, and a
remote→remote request errors without spawning. -/
theorem c1_witness :
    (send_file "a.txt" "srv:/x" cfg0 isDir0 exec0).map
        (fun r => r.1.map Invocation.program)
      = some [if isDir0 "a.txt" then "rsync" else "scp"]
    ∧ send_file "srv:/x" "drv:/y" cfg0 isDir0 exec0 =
        some ([], .error "Direct remote-to-remote transfers not supported yet") :=
  ⟨(c1_send_file_dispatch "a.txt" "srv:/x" cfg0 isDir0 exec0
      "local" "" "a.txt" "srv" "h.example" "/x" rfl rfl).2.1 rfl (by decide),
   (c1_send_file_dispatch "srv:/x" "drv:/y" cfg0 isDir0 exec0
      "srv" "h.example" "/x" "drv" "h2.example" "/y" rfl rfl).2.2.2
      (by decide) (by decide)⟩

/-- C8: the `send`, `get` and `sync` subcommands all delegate to the same
`send_file` with their SOURCE and DESTINATION arguments, so on every pair
of arguments, config, filesystem and spawn oracle they behave
identically. -/
theorem c8_subcommands_identical (src dest : String) (config : Config)
    (isDir : String → Bool) (exec : Invocation → SpawnResult) :
    run_command (.send src dest) config isDir exec
        = send_file src dest config isDir exec
    ∧ run_command (.get src dest) config isDir exec
        = send_file src dest config isDir exec
    ∧ run_command (.sync src dest) config isDir exec
        = send_file src dest config isDir exec :=
  ⟨rfl, rfl, rfl⟩

/-! ### Config store (C6, C9) -/

/-- Modelled from the spec: the filesystem seen by the config store
(`fs::read_to_string` / `fs::write` in `Config::load` / `Config::save`),
as a map from paths to file contents.  Reading is lookup; writing
shadows any previous entry. -/
def FileSys : Type := List (String × List Char)

/-- Modelled from the spec: `fs::read_to_string`, `None` when the file
does not exist (`config_path.exists()` is false). -/
def fs_read (fs : FileSys) (p : String) : Option (List Char) :=
  List.lookup p fs

/-- Modelled from the spec: `fs::write`. -/
def fs_write (fs : FileSys) (p : String) (content : List Char) : FileSys :=
  (p, content) :: fs

/-- The fixed user-config location used by both `Config::load` (lines
28-32) and `Config::save` (lines 47-53): `<home>/.config/xfer/config.toml`. -/
def config_path (home : String) : String :=
  home ++ "/.config/xfer/config.toml"

/-- Modelled from the spec: the structured-file encoding of the config
(`toml::to_string_pretty`, an external crate).  The concrete grammar is
of no consequence to the spec; what matters is that it is a total
injective encoding of the persisted fields with a decoder inverting it.
Lengths are written in unary followed by `:`. -/
def encNat (n : Nat) : List Char :=
  List.replicate n '#' ++ [':']

/-- Decoder for `encNat`. -/
def decNat (cs : List Char) : Option (Nat × List Char) :=
  match cs.dropWhile (· == '#') with
  | ':' :: rest => some ((cs.takeWhile (· == '#')).length, rest)
  | _ => none

/-- Length-prefixed string encoding. -/
def encStr (s : String) : List Char :=
  encNat s.length ++ s.data

/-- Decoder for `encStr`. -/
def decStr (cs : List Char) : Option (String × List Char) :=
  match decNat cs with
  | some (n, rest) =>
      if n ≤ rest.length then some (⟨rest.take n⟩, rest.drop n) else none
  | none => none

/-- Tagged encoding of an optional field. -/
def encOpt {α : Type} (f : α → List Char) : Option α → List Char
  | none => ['N']
  | some a => 'S' :: f a

/-- Decoder for `encOpt`. -/
def decOpt {α : Type} (f : List Char → Option (α × List Char)) :
    List Char → Option (Option α × List Char)
  | 'N' :: rest => some (none, rest)
  | 'S' :: rest =>
      match f rest with
      | some (a, r) => some (some a, r)
      | none => none
  | _ => none

/-- Field-by-field encoding of one `ServerConfig`: host, user, optional
key path, optional port, optional default remote path. -/
def encServer (s : ServerConfig) : List Char :=
  encStr s.host ++ encStr s.user ++ encOpt encStr s.key_path
    ++ encOpt encNat s.port ++ encOpt encStr s.default_remote_path

/-- Decoder for `encServer`. -/
def decServer (cs : List Char) : Option (ServerConfig × List Char) :=
  match decStr cs with
  | none => none
  | some (host, cs1) =>
    match decStr cs1 with
    | none => none
    | some (user, cs2) =>
      match decOpt decStr cs2 with
      | none => none
      | some (key, cs3) =>
        match decOpt decNat cs3 with
        | none => none
        | some (port, cs4) =>
          match decOpt decStr cs4 with
          | none => none
          | some (drp, cs5) => some (⟨host, user, key, port, drp⟩, cs5)

/-- Encoding of one alias → server entry. -/
def encEntry (e : String × ServerConfig) : List Char :=
  encStr e.1 ++ encServer e.2

/-- Decoder for `encEntry`. -/
def decEntry (cs : List Char) : Option ((String × ServerConfig) × List Char) :=
  match decStr cs with
  | none => none
  | some (a, cs1) =>
    match decServer cs1 with
    | none => none
    | some (s, cs2) => some ((a, s), cs2)

/-- Decode exactly `n` consecutive items. -/
def decListN {α : Type} (f : List Char → Option (α × List Char)) :
    Nat → List Char → Option (List α × List Char)
  | 0, cs => some ([], cs)
  | n + 1, cs =>
      match f cs with
      | none => none
      | some (a, cs1) =>
          match decListN f n cs1 with
          | none => none
          | some (l, r) => some (a :: l, r)

/-- Count-prefixed list encoding. -/
def encList {α : Type} (f : α → List Char) (l : List α) : List Char :=
  encNat l.length ++ (l.map f).flatten

/-- Decoder for `encList`. -/
def decList {α : Type} (f : List Char → Option (α × List Char))
    (cs : List Char) : Option (List α × List Char) :=
  match decNat cs with
  | some (n, rest) => decListN f n rest
  | none => none

/-- Whole-config encoding: the servers map then the default server. -/
def encConfig (c : Config) : List Char :=
  encList encEntry c.servers ++ encOpt encStr c.default_server

/-- Decoder for `encConfig`. -/
def decConfig (cs : List Char) : Option (Config × List Char) :=
  match decList decEntry cs with
  | none => none
  | some (servers, cs1) =>
    match decOpt decStr cs1 with
    | none => none
    | some (ds, cs2) => some (⟨servers, ds⟩, cs2)

/-- Mirrors `Config::save` (lines 46-57): serialize and write to the
fixed config path under the home directory (directory creation has no
observable effect in the filesystem model). -/
def Config.save (c : Config) (home : String) (fs : FileSys) : FileSys :=
  fs_write fs (config_path home) (encConfig c)

/-- Mirrors `Config::load` (lines 27-44): a missing file yields the empty
configuration; an existing file is parsed, a parse failure becoming an
error. -/
def Config.load (home : String) (fs : FileSys) : Except String Config :=
  match fs_read fs (config_path home) with
  | none => .ok ⟨[], none⟩
  | some content =>
      match decConfig content with
      | some (c, []) => .ok c
      | _ => .error "invalid config file"

/-! ### Round-trip lemmas for the config codec -/

lemma takeWhile_hash (n : Nat) (rest : List Char) :
    (List.replicate n '#' ++ ':' :: rest).takeWhile (· == '#')
      = List.replicate n '#' := by
  induction n with
  | zero => simp [List.takeWhile_cons, show ((':' : Char) == '#') = false from rfl]
  | succ n ih =>
      simp [List.replicate_succ, List.takeWhile_cons,
        show (('#' : Char) == '#') = true from rfl, ih]

lemma dropWhile_hash (n : Nat) (rest : List Char) :
    (List.replicate n '#' ++ ':' :: rest).dropWhile (· == '#')
      = ':' :: rest := by
  induction n with
  | zero => simp [List.dropWhile_cons, show ((':' : Char) == '#') = false from rfl]
  | succ n ih =>
      simp [List.replicate_succ, List.dropWhile_cons,
        show (('#' : Char) == '#') = true from rfl, ih]

lemma decNat_enc (n : Nat) (rest : List Char) :
    decNat (encNat n ++ rest) = some (n, rest) := by
  unfold encNat decNat
  rw [List.append_assoc, List.singleton_append, dropWhile_hash, takeWhile_hash]
  simp

lemma decStr_enc (s : String) (rest : List Char) :
    decStr (encStr s ++ rest) = some (s, rest) := by
  unfold encStr decStr
  rw [List.append_assoc, decNat_enc]
  have hlen : s.length = s.data.length := rfl
  rw [hlen]
  simp [List.take_left, List.drop_left]

lemma decOpt_enc {α : Type} (enc : α → List Char)
    (dec : List Char → Option (α × List Char))
    (h : ∀ a rest, dec (enc a ++ rest) = some (a, rest))
    (o : Option α) (rest : List Char) :
    decOpt dec (encOpt enc o ++ rest) = some (o, rest) := by
  cases o with
  | none => rfl
  | some a =>
      show decOpt dec ('S' :: (enc a ++ rest)) = some (some a, rest)
      simp [decOpt, h]

lemma decServer_enc (s : ServerConfig) (rest : List Char) :
    decServer (encServer s ++ rest) = some (s, rest) := by
  unfold encServer decServer
  simp [List.append_assoc, decStr_enc,
    decOpt_enc encStr decStr decStr_enc,
    decOpt_enc encNat decNat decNat_enc]

lemma decEntry_enc (e : String × ServerConfig) (rest : List Char) :
    decEntry (encEntry e ++ rest) = some (e, rest) := by
  unfold encEntry decEntry
  simp [List.append_assoc, decStr_enc, decServer_enc]

lemma decListN_enc {α : Type} (enc : α → List Char)
    (dec : List Char → Option (α × List Char))
    (h : ∀ a rest, dec (enc a ++ rest) = some (a, rest))
    (l : List α) (rest : List Char) :
    decListN dec l.length ((l.map enc).flatten ++ rest) = some (l, rest) := by
  induction l generalizing rest with
  | nil => rfl
  | cons a t ih =>
      show decListN dec (t.length + 1)
          ((enc a ++ (t.map enc).flatten) ++ rest) = some (a :: t, rest)
      simp [decListN, List.append_assoc, h, ih]

lemma decList_enc {α : Type} (enc : α → List Char)
    (dec : List Char → Option (α × List Char))
    (h : ∀ a rest, dec (enc a ++ rest) = some (a, rest))
    (l : List α) (rest : List Char) :
    decList dec (encList enc l ++ rest) = some (l, rest) := by
  unfold encList decList
  rw [List.append_assoc, decNat_enc]
  simp [decListN_enc enc dec h]

lemma decConfig_enc (c : Config) (rest : List Char) :
    decConfig (encConfig c ++ rest) = some (c, rest) := by
  unfold encConfig decConfig
  simp [List.append_assoc, decList_enc encEntry decEntry decEntry_enc,
    decOpt_enc encStr decStr decStr_enc]

/-- C6: the config store reads and writes at the fixed location
`<home>/.config/xfer/config.toml`, persisting the servers map and the
optional default alias, and loading after saving returns exactly the
saved configuration (same servers map, same default server). -/
theorem c6_config_roundtrip (home : String) (fs : FileSys) (c : Config) :
    Config.save c home fs
        = (home ++ "/.config/xfer/config.toml", encConfig c) :: fs
    ∧ Config.load home (Config.save c home fs) = .ok c := by
  constructor
  · rfl
  · show Config.load home (fs_write fs (config_path home) (encConfig c)) = .ok c
    unfold Config.load fs_read fs_write
    rw [List.lookup_cons_self]
    have h : decConfig (encConfig c) = some (c, []) := by
      have := decConfig_enc c []
      rwa [List.append_nil] at this
    simp [h]

/-- C9: when no file exists at the fixed config path, `Config::load`
returns `Ok` with an empty server map and no default server; a parse
failure of an existing file is returned as an error. -/
theorem c9_load_missing_or_invalid (home : String) (fs : FileSys) :
    (fs_read fs (config_path home) = none →
      Config.load home fs = .ok ⟨[], none⟩)
    ∧ ∀ content, fs_read fs (config_path home) = some content →
        decConfig content = none →
        ∃ e, Config.load home fs = .error e := by
  constructor
  · intro h
    unfold Config.load
    rw [h]
  · intro content hc hd
    unfold Config.load
    rw [hc]
    simp [hd]

/-- Witness for C9: the empty filesystem has no config file; a filesystem
holding an unparseable config file loads with an error. -/
theorem c9_witness :
    Config.load "/h" ([] : FileSys) = .ok ⟨[], none⟩
    ∧ ∃ e, Config.load "/h" [(config_path "/h", ['x'])] = .error e :=
  ⟨(c9_load_missing_or_invalid "/h" []).1 rfl,
   (c9_load_missing_or_invalid "/h" [(config_path "/h", ['x'])]).2
      ['x'] (by simp [fs_read]) rfl⟩
